import Mathlib

/-!
Verification development for the Inventory Optimizer calculation engine
(`src/calculations.py`).  The five engine functions are embedded shallowly:

* historical demand samples and forecast values become rational numbers
  (Python floats idealised as exact rationals);
* `np.std` is the population standard deviation: the real square root of the
  mean squared deviation;
* `scipy.stats.norm.ppf` is an external dependency; it is modelled by a
  `NormModel` carrying an arbitrary function that is monotone on the open
  unit interval, the one analytic property of the inverse normal CDF the
  engine relies on.  On inputs outside `(0,1)` the real `ppf` yields
  `-inf`, `+inf` or `nan`, so the subsequent `int(np.ceil(...))` raises and
  the blanket `except` handler returns `0`; the embedding makes that branch
  explicit;
* `int(np.round x)` is round-half-to-even (`npRound`), `int(np.ceil x)` is
  the integer ceiling, Python `round(x, 1)` rounds to one decimal
  half-to-even (`pyRound1`);
* every `try ... except ... return 0` handler is embedded as the explicit
  `0`-returning branch on the inputs that make the body raise.
-/

namespace InventoryOptimizer

/-- Arithmetic mean of a list of rationals (`np.mean`); `0` on the empty
list, which the engine only reaches behind explicit length guards. -/
def listMean (xs : List ℚ) : ℚ := xs.sum / xs.length

/-- Population variance (`np.std` squared, `ddof = 0`): mean squared
deviation from the mean. -/
def listVar (xs : List ℚ) : ℚ :=
  ((xs.map (fun x => (x - listMean xs) ^ 2)).sum) / xs.length

/-- Mean of the squares, used to restate the variance in the
`E[X^2] - (E[X])^2` form. -/
def listMeanSq (xs : List ℚ) : ℚ := ((xs.map (fun x => x ^ 2)).sum) / xs.length

/-- `np.std`: the population standard deviation, a real number. -/
noncomputable def npStd (xs : List ℚ) : ℝ := Real.sqrt (listVar xs)

/-- `int(np.round x)`: round half to even, as numpy does. -/
def npRound (x : ℚ) : ℤ :=
  let f : ℤ := ⌊x⌋
  let frac : ℚ := x - f
  if frac < 1 / 2 then f
  else if 1 / 2 < frac then f + 1
  else if f % 2 = 0 then f else f + 1

/-- Python `round(x, 1)`: one decimal digit, ties to even. -/
def pyRound1 (x : ℚ) : ℚ := (npRound (10 * x) : ℚ) / 10

/-- Model of the external `scipy.stats.norm.ppf` on the open unit interval:
an arbitrary real-valued function that is monotone there, the property of
the inverse standard-normal CDF the engine's formulas depend on. -/
structure NormModel where
  ppf : ℚ → ℝ
  mono : ∀ a b : ℚ, 0 < a → a < b → b < 1 → ppf a ≤ ppf b

/-- A concrete `NormModel` instance used to evaluate closed statements:
`q ↦ 2q - 1`, monotone and sign-matching the true probit on `(0,1)`. -/
noncomputable def probitModel : NormModel where
  ppf q := ((2 * q - 1 : ℚ) : ℝ)
  mono a b _ hab _ := by
    have h : (2 * a - 1 : ℚ) ≤ 2 * b - 1 := by linarith
    simpa using (Rat.cast_le (K := ℝ)).mpr h

/-- `calculate_safety_stock` from `src/calculations.py`.

```python
try:
    if len(demand_data) == 0:
        return 0
    std_demand = np.std(demand_data)
    z_score = stats.norm.ppf(service_level)
    safety_stock = z_score * std_demand * np.sqrt(lead_time)
    return max(1, int(np.ceil(safety_stock)))
except Exception as e:
    print(...); return 0
```

For `service_level` outside `(0,1)` the `ppf` value is infinite or `nan`,
`int(np.ceil(...))` raises (`OverflowError` / `ValueError`) and the handler
returns `0`; that swallowed-error branch is the middle case below.
`lead_time` is the positive integer day count supplied by the callers. -/
noncomputable def calculate_safety_stock (M : NormModel) (demand_data : List ℚ)
    (lead_time : ℕ) (service_level : ℚ) : ℤ :=
  if demand_data.length = 0 then 0
  else if service_level ≤ 0 ∨ 1 ≤ service_level then 0
  else max 1 ⌈M.ppf service_level * npStd demand_data * Real.sqrt lead_time⌉

/-- The safety-stock value the specification text prescribes:
`max(0, z * sigma * sqrt(lead_time_days))`, a real number with no rounding
and no integer floor. -/
noncomputable def spec_safety_stock (M : NormModel) (demand : List ℚ)
    (lead_time : ℕ) (service_level : ℚ) : ℝ :=
  max 0 (M.ppf service_level * npStd demand * Real.sqrt lead_time)

/-- A forecast as the engine receives it: a numpy array of per-period
values from `get_forecast`, or a bare scalar fallback. -/
inductive Forecast where
  | arr (xs : List ℚ)
  | scalar (x : ℚ)

/-- `calculate_optimal_inventory` from `src/calculations.py`.

```python
try:
    if isinstance(forecast, np.ndarray) and len(forecast) >= lead_time:
        demand_during_lead_time = np.mean(forecast[:lead_time]) * lead_time
    else:
        if hasattr(forecast, "__len__") and len(forecast) > 0:
            avg_demand = np.mean(forecast)
        else:
            avg_demand = forecast if isinstance(forecast, (int, float)) else 1
        demand_during_lead_time = avg_demand * lead_time
    optimal_inv = demand_during_lead_time + safety_stock
    return max(1, int(np.round(optimal_inv)))
except Exception as e:
    print(...); return 0
```

When `lead_time = 0` the array branch takes `np.mean` of an empty slice,
which is `nan`, `int(np.round nan)` raises, and the handler returns `0`;
an empty array falls through both length tests and the substituted default
`avg_demand = 1` is used. -/
def calculate_optimal_inventory (forecast : Forecast) (lead_time : ℕ)
    (safety_stock : ℚ) : ℤ :=
  match forecast with
  | .arr xs =>
      if lead_time ≤ xs.length then
        if lead_time = 0 then 0
        else max 1 (npRound (listMean (xs.take lead_time) * lead_time + safety_stock))
      else if 0 < xs.length then
        max 1 (npRound (listMean xs * lead_time + safety_stock))
      else
        max 1 (npRound (1 * lead_time + safety_stock))
  | .scalar x => max 1 (npRound (x * lead_time + safety_stock))

/-- The optimal-inventory value the specification text prescribes:
`max(0, demand_during_lead_time + safety_stock)` with no rounding, where
the demand during lead time averages the forecast window (the whole
sequence when shorter than the lead time, the scalar itself otherwise). -/
def spec_optimal_inventory (forecast : Forecast) (lead_time : ℕ)
    (safety_stock : ℚ) : ℚ :=
  match forecast with
  | .arr xs =>
      if lead_time ≤ xs.length then
        max 0 (listMean (xs.take lead_time) * lead_time + safety_stock)
      else
        max 0 (listMean xs * lead_time + safety_stock)
  | .scalar x => max 0 (x * lead_time + safety_stock)

/-- `calculate_order_quantity` from `src/calculations.py`:
`max(0, int(np.round(optimal_inventory - current_stock)))`. -/
def calculate_order_quantity (optimal_inventory current_stock : ℚ) : ℤ :=
  max 0 (npRound (optimal_inventory - current_stock))

/-- The order quantity the specification text prescribes:
`max(0, optimal_inventory - current_stock)`, unrounded. -/
def spec_order_quantity (optimal_inventory current_stock : ℚ) : ℚ :=
  max 0 (optimal_inventory - current_stock)

/-- `estimate_old_method_inventory` from `src/calculations.py`: `0` on an
empty series, else `max(1, int(np.round(np.mean(demand_data) * 60)))`. -/
def estimate_old_method_inventory (demand_data : List ℚ) : ℤ :=
  if demand_data.length = 0 then 0
  else max 1 (npRound (listMean demand_data * 60))

/-- `calculate_cost_savings` from `src/calculations.py`: returns
`(int(np.round(annual_savings)), round(pct, 1), int(np.round(capital)))`
with the division-by-zero guard on the baseline. -/
def calculate_cost_savings (optimal_inventory old_method_inventory unit_cost : ℚ) :
    ℤ × ℚ × ℤ :=
  let inventory_reduction_units := old_method_inventory - optimal_inventory
  let capital_released := inventory_reduction_units * unit_cost
  let annual_savings := capital_released * (15 / 100)
  let pct :=
    if 0 < old_method_inventory then
      inventory_reduction_units / old_method_inventory * 100
    else 0
  (npRound annual_savings, pyRound1 pct, npRound capital_released)

/-! ### Helper lemmas about the rounding and statistics primitives -/

theorem npRound_bounds (x : ℚ) : ⌊x⌋ ≤ npRound x ∧ npRound x ≤ ⌊x⌋ + 1 := by
  unfold npRound
  dsimp only
  split_ifs <;> omega

theorem npRound_zero : npRound 0 = 0 := by
  unfold npRound
  norm_num

theorem npRound_nonpos {x : ℚ} (hx : x ≤ 0) : npRound x ≤ 0 := by
  rcases eq_or_lt_of_le hx with h | h
  · rw [h, npRound_zero]
  · have hfl : (⌊x⌋ : ℚ) < 0 := lt_of_le_of_lt (Int.floor_le x) h
    have hfl2 : ⌊x⌋ < 0 := by exact_mod_cast hfl
    have := (npRound_bounds x).2
    omega

theorem max_one_npRound_max_zero (u : ℚ) :
    max 1 (npRound (max 0 u)) = max 1 (npRound u) := by
  rcases le_total u 0 with h | h
  · rw [max_eq_left h, npRound_zero]
    have h2 : npRound u ≤ 0 := npRound_nonpos h
    rw [max_eq_left (by norm_num : (0 : ℤ) ≤ 1), max_eq_left (by omega : npRound u ≤ 1)]
  · rw [max_eq_right h]

theorem sum_map_sq_sub (xs : List ℚ) (m : ℚ) :
    (xs.map (fun x => (x - m) ^ 2)).sum
      = (xs.map (fun x => x ^ 2)).sum - 2 * m * xs.sum + xs.length * m ^ 2 := by
  induction xs with
  | nil => simp
  | cons a t ih =>
      simp only [List.map_cons, List.sum_cons, ih, List.length_cons]
      push_cast
      ring

theorem listVar_eq_meanSq_sub_sq {xs : List ℚ} (h : xs ≠ []) :
    listVar xs = listMeanSq xs - listMean xs ^ 2 := by
  have h0 : xs.length ≠ 0 := by simpa [List.length_eq_zero] using h
  have hn : (xs.length : ℚ) ≠ 0 := Nat.cast_ne_zero.mpr h0
  unfold listVar listMeanSq listMean
  rw [sum_map_sq_sub]
  field_simp
  ring

theorem sum_of_constant {xs : List ℚ} {d : ℚ} (h : ∀ x ∈ xs, x = d) :
    xs.sum = xs.length * d := by
  induction xs with
  | nil => simp
  | cons a t ih =>
      have ha : a = d := h a (List.mem_cons_self a t)
      have ht : ∀ x ∈ t, x = d := fun x hx => h x (List.mem_cons_of_mem _ hx)
      simp only [List.sum_cons, ih ht, ha, List.length_cons]
      push_cast
      ring

theorem listMean_of_constant {xs : List ℚ} {d : ℚ} (hne : xs ≠ [])
    (h : ∀ x ∈ xs, x = d) : listMean xs = d := by
  have h0 : xs.length ≠ 0 := by simpa [List.length_eq_zero] using hne
  have hn : (xs.length : ℚ) ≠ 0 := Nat.cast_ne_zero.mpr h0
  unfold listMean
  rw [sum_of_constant h, mul_comm, mul_div_assoc, div_self hn, mul_one]

theorem listVar_of_constant {xs : List ℚ} {d : ℚ} (hne : xs ≠ [])
    (h : ∀ x ∈ xs, x = d) : listVar xs = 0 := by
  have hmap : xs.map (fun x => (x - listMean xs) ^ 2) = xs.map (fun _ => 0) := by
    apply List.map_congr_left
    intro x hx
    rw [listMean_of_constant hne h, h x hx]
    ring
  unfold listVar
  rw [hmap]
  simp

theorem npStd_of_constant {xs : List ℚ} {d : ℚ} (hne : xs ≠ [])
    (h : ∀ x ∈ xs, x = d) : npStd xs = 0 := by
  unfold npStd
  rw [listVar_of_constant hne h]
  simp

theorem npStd_nonneg (xs : List ℚ) : 0 ≤ npStd xs := Real.sqrt_nonneg _

/-! ### Claim theorems -/

/-- C3 (code_bug evidence): on `service_level = 0` with nonconstant data,
`calculate_safety_stock` hits the swallowed-exception path (`int(np.ceil)`
of `-inf` raises, the blanket handler returns `0`), and that `0` is
literally the same value as the legitimately computed `0` of the empty
series — the engine does catch internal errors and return a bare `0`
indistinguishable from a valid zero result, contradicting the claim. -/
theorem C3_error_zero_equals_valid_zero :
    calculate_safety_stock probitModel [1, 2] 5 0 = 0
    ∧ calculate_safety_stock probitModel [] 5 (1 / 2) = 0 := by
  constructor
  · unfold calculate_safety_stock
    norm_num
  · unfold calculate_safety_stock
    norm_num

/-- C4 (code_bug evidence): with `service_level = 0` or `service_level = 1`
and a nonempty series, `calculate_safety_stock` returns the number `0`
(the `±inf` z-score makes `int(np.ceil(...))` raise and the blanket
`except` swallows it) instead of raising any `InvalidConfiguration`
error. -/
theorem C4_out_of_range_service_level_returns_zero :
    calculate_safety_stock probitModel [1, 2] 5 0 = 0
    ∧ calculate_safety_stock probitModel [1, 2] 5 1 = 0 := by
  constructor
  · unfold calculate_safety_stock
    norm_num
  · unfold calculate_safety_stock
    norm_num

/-- C5 counterexample: the returned `reduction_pct` is the formula value
rounded to one decimal, not the formula value itself: at
`optimal = 1`, `baseline = 3`, the formula gives `200/3 = 66.666...` but
the function returns `66.7`. -/
theorem C5_counterexample :
    (calculate_cost_savings 1 3 0).2.1 ≠ (3 - 1) / 3 * 100 := by
  have h : ⌊(2000 / 3 : ℚ)⌋ = 666 := by
    rw [Int.floor_eq_iff]
    norm_num
  unfold calculate_cost_savings pyRound1 npRound
  norm_num [h]

/-- C5 (amended): `calculate_cost_savings` returns as `reduction_pct` the
value `((baseline - optimal)/baseline) * 100` rounded to one decimal place
when `baseline > 0` and `0` otherwise (never a division-by-zero failure),
and when `optimal = baseline` all three outputs are `0`. -/
theorem C5_cost_savings_amended (o b c : ℚ) :
    ((calculate_cost_savings o b c).2.1
        = if 0 < b then pyRound1 ((b - o) / b * 100) else 0)
    ∧ (o = b → calculate_cost_savings o b c = (0, 0, 0)) := by
  constructor
  · unfold calculate_cost_savings
    dsimp only
    split_ifs with h
    · rfl
    · simp [pyRound1, npRound_zero]
  · rintro rfl
    unfold calculate_cost_savings
    simp [pyRound1, npRound_zero]

/-- C5 witness: the amended statement applied at
`optimal = baseline = 5`, `unit_cost = 2`. -/
theorem C5_cost_savings_amended_witness :
    ((calculate_cost_savings 5 5 2).2.1
        = if (0 : ℚ) < 5 then pyRound1 ((5 - 5) / 5 * 100) else 0)
    ∧ calculate_cost_savings 5 5 2 = (0, 0, 0) :=
  ⟨(C5_cost_savings_amended 5 5 2).1, (C5_cost_savings_amended 5 5 2).2 rfl⟩

/-- C6 counterexample: at `optimal_inventory = 1/2`, `current_stock = 0`
the claimed value is `max(0, 1/2) = 1/2`, but the function rounds
half-to-even and returns `0`. -/
theorem C6_counterexample :
    ((calculate_order_quantity (1 / 2) 0 : ℤ) : ℚ)
      ≠ spec_order_quantity (1 / 2) 0 := by
  have h : ⌊(1 / 2 - 0 : ℚ)⌋ = 0 := by
    rw [Int.floor_eq_iff]
    · norm_num
  unfold calculate_order_quantity spec_order_quantity npRound
  norm_num [h]

/-- C6 (amended): `calculate_order_quantity` returns
`max(0, round_half_even(optimal_inventory - current_stock))`; the result is
never negative, is `0` whenever `current_stock ≥ optimal_inventory`, and
`calculate_order_quantity opt opt = 0` for every `opt`. -/
theorem C6_order_quantity_amended (o c : ℚ) :
    calculate_order_quantity o c = max 0 (npRound (o - c))
    ∧ 0 ≤ calculate_order_quantity o c
    ∧ (o ≤ c → calculate_order_quantity o c = 0)
    ∧ calculate_order_quantity o o = 0 := by
  refine ⟨rfl, le_max_left _ _, fun h => ?_, ?_⟩
  · unfold calculate_order_quantity
    exact max_eq_left (npRound_nonpos (by linarith))
  · unfold calculate_order_quantity
    rw [sub_self, npRound_zero, max_self]

/-- C6 witness: the amended statement applied at
`optimal_inventory = 3`, `current_stock = 5` (a surplus). -/
theorem C6_order_quantity_amended_witness :
    calculate_order_quantity 3 5 = 0 :=
  (C6_order_quantity_amended 3 5).2.2.1 (by norm_num)

/-- C7 (code_bug evidence): on an empty forecast array the function does
not signal any `InsufficientData` error; it substitutes the default
`avg_demand = 1` and returns `max(1, round(1 * lead_time + safety_stock))`,
here `7` for `lead_time = 7`, `safety_stock = 0`. -/
theorem C7_empty_forecast_uses_default :
    calculate_optimal_inventory (Forecast.arr []) 7 0 = 7 := by
  have h : ⌊(1 * (7 : ℕ) + 0 : ℚ)⌋ = 7 := by
    rw [Int.floor_eq_iff]
    · norm_num
  unfold calculate_optimal_inventory npRound
  norm_num [h]

/-- C9: on the empty demand series both `calculate_safety_stock` (for any
ppf model, lead time and service level) and `estimate_old_method_inventory`
return `0` through their explicit early-return guards; both embedded
functions are total, so no exception is raised. -/
theorem C9_empty_series_zero (M : NormModel) (lead_time : ℕ)
    (service_level : ℚ) :
    calculate_safety_stock M [] lead_time service_level = 0
    ∧ estimate_old_method_inventory [] = 0 := by
  constructor
  · unfold calculate_safety_stock
    simp
  · unfold estimate_old_method_inventory
    simp

/-- C1 counterexample: on the constant series `[5, 5]` (population standard
deviation `0`) with `lead_time = 7`, `service_level = 1/2`, the claimed
value `max(0, z * sigma * sqrt(lead_time))` is `0`, but
`calculate_safety_stock` returns `1` (the `max(1, ceil(...))` floor in the
code). -/
theorem C1_counterexample :
    ((calculate_safety_stock probitModel [5, 5] 7 (1 / 2) : ℤ) : ℝ)
      ≠ spec_safety_stock probitModel [5, 5] 7 (1 / 2) := by
  have hc : ∀ x ∈ ([5, 5] : List ℚ), x = 5 := by
    intro x hx
    simp at hx
    exact hx
  have hstd : npStd [5, 5] = 0 := npStd_of_constant (by simp) hc
  have hcode : calculate_safety_stock probitModel [5, 5] 7 (1 / 2) = 1 := by
    unfold calculate_safety_stock
    rw [if_neg (by simp), if_neg (by norm_num)]
    rw [hstd, mul_zero, zero_mul, Int.ceil_zero]
    exact max_eq_left (by norm_num)
  have hspec : spec_safety_stock probitModel [5, 5] 7 (1 / 2) = 0 := by
    unfold spec_safety_stock
    rw [hstd, mul_zero, zero_mul, max_self]
  rw [hcode, hspec]
  norm_num

/-- C1 (amended): for every nonempty demand series, `lead_time > 0` and
`service_level` strictly between `0` and `1`, `calculate_safety_stock`
returns `max(1, ceil(z * sigma * sqrt(lead_time)))` where `sigma` is the
population standard deviation (stated here in the
`sqrt(E[X^2] - (E[X])^2)` form) and `z` the inverse-CDF value; in
particular every constant-valued demand series yields `1`, not `0`. -/
theorem C1_safety_stock_amended (M : NormModel) (demand : List ℚ) (lt : ℕ)
    (sl : ℚ) (hd : demand ≠ []) (_hlt : 0 < lt) (h0 : 0 < sl) (h1 : sl < 1) :
    calculate_safety_stock M demand lt sl
      = max 1 ⌈M.ppf sl
          * Real.sqrt ((listMeanSq demand - listMean demand ^ 2 : ℚ))
          * Real.sqrt lt⌉
    ∧ ∀ d : ℚ, (∀ x ∈ demand, x = d)
        → calculate_safety_stock M demand lt sl = 1 := by
  have hlen : ¬(demand.length = 0) := by
    simpa [List.length_eq_zero] using hd
  have hsl : ¬(sl ≤ 0 ∨ 1 ≤ sl) := by
    push_neg
    exact ⟨h0, h1⟩
  constructor
  · unfold calculate_safety_stock
    rw [if_neg hlen, if_neg hsl]
    unfold npStd
    rw [listVar_eq_meanSq_sub_sq hd]
  · intro d hconst
    unfold calculate_safety_stock
    rw [if_neg hlen, if_neg hsl, npStd_of_constant hd hconst, mul_zero,
      zero_mul, Int.ceil_zero]
    exact max_eq_left (by norm_num)

/-- C1 witness: the amended statement applied to `demand = [5, 6]`,
`lead_time = 4`, `service_level = 1/2` under the concrete ppf model. -/
theorem C1_safety_stock_amended_witness :
    (calculate_safety_stock probitModel [5, 6] 4 (1 / 2)
        = max 1 ⌈probitModel.ppf (1 / 2)
            * Real.sqrt ((listMeanSq [5, 6] - listMean [5, 6] ^ 2 : ℚ))
            * Real.sqrt (4 : ℕ)⌉)
    ∧ ∀ d : ℚ, (∀ x ∈ ([5, 6] : List ℚ), x = d)
        → calculate_safety_stock probitModel [5, 6] 4 (1 / 2) = 1 :=
  C1_safety_stock_amended probitModel [5, 6] 4 (1 / 2) (by simp)
    (by norm_num) (by norm_num) (by norm_num)

/-- C2 counterexample: for the one-element array `[0]` with
`lead_time = 1`, `safety_stock = 0`, the claimed value
`max(0, mean * lead_time + safety_stock)` is `0`, but
`calculate_optimal_inventory` returns `1` (the `max(1, round(...))` floor
in the code). -/
theorem C2_counterexample :
    ((calculate_optimal_inventory (Forecast.arr [0]) 1 0 : ℤ) : ℚ)
      ≠ spec_optimal_inventory (Forecast.arr [0]) 1 0 := by
  have hm : listMean ([0] : List ℚ) = 0 := by
    norm_num [listMean]
  simp only [calculate_optimal_inventory, spec_optimal_inventory]
  norm_num [hm, npRound_zero]

/-- C2 (amended): for every positive lead time and every forecast that is
a scalar or a nonempty sequence (of any length), the returned value is the
specification value `max(0, demand_during_lead_time + safety_stock)`
wrapped in the code's integer policy `max(1, round_half_even(...))`, with
the same windowing: mean of the first `lead_time` values when the sequence
is long enough, mean of all available values or the scalar otherwise. -/
theorem C2_optimal_inventory_amended (f : Forecast) (lt : ℕ) (ss : ℚ)
    (hlt : 0 < lt) (hf : ∀ xs, f = Forecast.arr xs → xs ≠ []) :
    calculate_optimal_inventory f lt ss
      = max 1 (npRound (spec_optimal_inventory f lt ss)) := by
  cases f with
  | arr xs =>
      have hxs : xs ≠ [] := hf xs rfl
      simp only [calculate_optimal_inventory, spec_optimal_inventory]
      by_cases h : lt ≤ xs.length
      · rw [if_pos h, if_pos h, if_neg (Nat.pos_iff_ne_zero.mp hlt),
          max_one_npRound_max_zero]
      · rw [if_neg h, if_neg h, if_pos (List.length_pos.mpr hxs),
          max_one_npRound_max_zero]
  | scalar x =>
      simp only [calculate_optimal_inventory, spec_optimal_inventory]
      rw [max_one_npRound_max_zero]

/-- C2 witness: the amended statement applied to the array `[2, 3]` with
`lead_time = 2`, `safety_stock = 5`. -/
theorem C2_optimal_inventory_amended_witness :
    calculate_optimal_inventory (Forecast.arr [2, 3]) 2 5
      = max 1 (npRound (spec_optimal_inventory (Forecast.arr [2, 3]) 2 5)) :=
  C2_optimal_inventory_amended (Forecast.arr [2, 3]) 2 5 (by norm_num)
    (by intro xs h; cases h; simp)

/-- C8: with the same demand series of nonzero variance, any lead time and
two valid service levels `s1 < s2`, `calculate_safety_stock` is monotone:
the inverse-CDF model is monotone on `(0,1)` and is multiplied by the
nonnegative `sigma * sqrt(lead_time)`, and `max(1, ceil(...))` preserves
the order. -/
theorem C8_safety_stock_monotone (M : NormModel) (demand : List ℚ)
    (lt : ℕ) (s1 s2 : ℚ) (hvar : listVar demand ≠ 0)
    (h0 : 0 < s1) (h12 : s1 < s2) (h1 : s2 < 1) :
    calculate_safety_stock M demand lt s1
      ≤ calculate_safety_stock M demand lt s2 := by
  have hlen : ¬(demand.length = 0) := by
    intro h
    apply hvar
    rw [List.length_eq_zero.mp h]
    simp [listVar]
  have hs1 : ¬(s1 ≤ 0 ∨ 1 ≤ s1) := by
    push_neg
    exact ⟨h0, by linarith⟩
  have hs2 : ¬(s2 ≤ 0 ∨ 1 ≤ s2) := by
    push_neg
    exact ⟨by linarith, h1⟩
  unfold calculate_safety_stock
  rw [if_neg hlen, if_neg hlen, if_neg hs1, if_neg hs2]
  apply max_le_max le_rfl
  apply Int.ceil_le_ceil
  apply mul_le_mul_of_nonneg_right _ (Real.sqrt_nonneg _)
  exact mul_le_mul_of_nonneg_right (M.mono s1 s2 h0 h12 h1) (npStd_nonneg _)

/-- C8 witness: the monotonicity statement applied to `demand = [0, 2]`
(variance `1`), `lead_time = 4`, service levels `1/4 < 3/4`. -/
theorem C8_safety_stock_monotone_witness :
    calculate_safety_stock probitModel [0, 2] 4 (1 / 4)
      ≤ calculate_safety_stock probitModel [0, 2] 4 (3 / 4) :=
  C8_safety_stock_monotone probitModel [0, 2] 4 (1 / 4) (3 / 4)
    (by norm_num [listVar, listMean]) (by norm_num) (by norm_num)
    (by norm_num)

/-- C10: all four operations return integers (the embedded codomain `ℤ`
mirrors the `int(...)` conversions); on every non-error path with a
nonempty demand series, an in-range service level, a positive lead time
and a usable forecast, `calculate_safety_stock`,
`calculate_optimal_inventory` and `estimate_old_method_inventory` are at
least `1`, and `calculate_order_quantity` is at least `0`. -/
theorem C10_integer_minimums (M : NormModel) (demand : List ℚ) (lt : ℕ)
    (sl : ℚ) (f : Forecast) (ss o c : ℚ)
    (hd : demand ≠ []) (h0 : 0 < sl) (h1 : sl < 1) (hlt : 0 < lt)
    (hf : ∀ xs, f = Forecast.arr xs → xs ≠ []) :
    1 ≤ calculate_safety_stock M demand lt sl
    ∧ 1 ≤ calculate_optimal_inventory f lt ss
    ∧ 1 ≤ estimate_old_method_inventory demand
    ∧ 0 ≤ calculate_order_quantity o c := by
  have hlen : ¬(demand.length = 0) := by
    simpa [List.length_eq_zero] using hd
  refine ⟨?_, ?_, ?_, le_max_left _ _⟩
  · unfold calculate_safety_stock
    rw [if_neg hlen, if_neg (by push_neg; exact ⟨h0, h1⟩)]
    exact le_max_left _ _
  · cases f with
    | arr xs =>
        simp only [calculate_optimal_inventory]
        split_ifs with hA hB
        · exact absurd hB (Nat.pos_iff_ne_zero.mp hlt)
        · exact le_max_left _ _
        · exact le_max_left _ _
        · exact le_max_left _ _
    | scalar x =>
        simp only [calculate_optimal_inventory]
        exact le_max_left _ _
  · unfold estimate_old_method_inventory
    rw [if_neg hlen]
    exact le_max_left _ _

/-- C10 witness: the statement applied to concrete valid inputs. -/
theorem C10_integer_minimums_witness :
    1 ≤ calculate_safety_stock probitModel [1, 2] 7 (1 / 2)
    ∧ 1 ≤ calculate_optimal_inventory (Forecast.arr [2, 3]) 7 0
    ∧ 1 ≤ estimate_old_method_inventory [1, 2]
    ∧ 0 ≤ calculate_order_quantity 4 9 :=
  C10_integer_minimums probitModel [1, 2] 7 (1 / 2) (Forecast.arr [2, 3])
    0 4 9 (by simp) (by norm_num) (by norm_num) (by norm_num)
    (by intro xs h; cases h; simp)

end InventoryOptimizer
